import Mathlib

/-!
Verification of the agent-hub session service core
(source: src/src-tauri/src/lib.rs).

Shallow embedding conventions:
* `HashMap<String, V>` tables (PAIRED_DEVICES, PAIRING_REQUESTS, PIN_RATE_LIMIT,
  PTY_SESSIONS, PTY_BROADCASTERS, JSON_PROCESSES, JSON_BROADCASTERS) become
  association lists `List (String × V)` (or plain key lists where only the key
  set is ever consulted), with `alookup` / `ainsert` / `aerase` modelling
  `get` / `insert` / `remove`.
* The SQLite database becomes a `Db` structure of table rows; `INSERT OR
  REPLACE` keyed on the primary key becomes insert-or-replace on the list.
* Wall-clock instants become integers (seconds); `Instant::elapsed` becomes
  truncated natural subtraction, matching its saturating behaviour.
* Externally generated randomness (tokens, pids) and the clock enter as
  explicit parameters.
* Process-level side effects (signals, PTY writes) are reified as an `Effect`
  list returned by the operation.
* The gzip layer of the scrollback store (the external flate2 crate) is a
  parameter pair `gzip_compress` / `gzip_decompress`; the base64 layer (the
  external base64 crate, STANDARD engine) is modelled concretely after
  RFC 4648.
-/

namespace AgentHub

/-- Association-list lookup, modelling `HashMap::get` (and a SQL point
`SELECT` by primary key). -/
def alookup {α : Type} (k : String) : List (String × α) → Option α
  | [] => none
  | (k2, v) :: rest => if k2 = k then some v else alookup k rest

/-- Association-list insert-or-replace, modelling `HashMap::insert` and SQL
`INSERT OR REPLACE` keyed on the primary key. -/
def ainsert {α : Type} (k : String) (v : α) (l : List (String × α)) :
    List (String × α) :=
  (k, v) :: l.filter (fun p => p.1 != k)

/-- Association-list removal, modelling `HashMap::remove` and SQL `DELETE`
by primary key. -/
def aerase {α : Type} (k : String) (l : List (String × α)) :
    List (String × α) :=
  l.filter (fun p => p.1 != k)

/-- Key-list insert, for tables of which the code only ever consults the key
set (the broadcaster maps and PTY_SESSIONS). -/
def sinsert (k : String) (l : List String) : List String :=
  k :: l.filter (fun x => x != k)

/-- Key-list removal. -/
def serase (k : String) (l : List String) : List String :=
  l.filter (fun x => x != k)

/-- Paired device record (struct `PairedDevice`, lib.rs). Keyed by its bearer
token in the PAIRED_DEVICES table. -/
structure PairedDevice where
  id : String
  name : String
  paired_at : String
  last_seen : String
deriving Repr, DecidableEq

/-- In-memory pairing request (struct `PairingRequest`, lib.rs); `created_at`
is the creation instant in whole seconds. -/
structure PairingRequest where
  code : String
  created_at : Int
  device_name : Option String
deriving Repr, DecidableEq

/-- Session row of the `sessions` table (struct `SessionData`, lib.rs). -/
structure SessionRow where
  id : String
  name : String
  agent_type : String
  command : String
  working_dir : String
  created_at : String
  claude_session_id : Option String
  sort_order : Int
  folder_id : Option String
deriving Repr, DecidableEq

/-- Row of the `terminal_buffers` table: base64-encoded gzip payload plus
update timestamp (lib.rs, init_db). -/
structure BufferRow where
  buffer_data : String
  updated_at : String
deriving Repr, DecidableEq

/-- Row of the `recently_closed` table (struct `RecentlyClosedData`, lib.rs);
`closed_at` is modelled as an integer timestamp (the RFC 3339 strings the code
stores compare lexicographically, i.e. chronologically). -/
structure RecentlyClosedData where
  id : String
  name : String
  agent_type : String
  command : String
  working_dir : String
  claude_session_id : Option String
  closed_at : Nat
deriving Repr, DecidableEq

/-- The SQLite database `sessions.db` (init_db, lib.rs): the four tables the
claims touch. -/
structure Db where
  sessions : List SessionRow
  terminal_buffers : List (String × BufferRow)
  recently_closed : List RecentlyClosedData
  paired_devices : List (String × PairedDevice)
deriving Repr

/-- Fresh database, as created by `init_db` on first run. -/
def emptyDb : Db := ⟨[], [], [], []⟩

/-! ### Authentication: token extraction and `check_auth` -/

/-- Translation of `extract_token` (lib.rs 2404-2410): read the
`authorization` header (axum lower-cases header names) and strip the leading
`Bearer `. -/
def extract_token (headers : List (String × String)) : Option String :=
  (alookup "authorization" headers).bind
    (fun v => if v.startsWith "Bearer " then some (v.drop 7) else none)

/-- Translation of `is_valid_token` (lib.rs 747-750): the token is a key of
the PAIRED_DEVICES table. -/
def is_valid_token (devices : List (String × PairedDevice)) (token : String) :
    Bool :=
  (alookup token devices).isSome

/-- Translation of `check_auth` (lib.rs 2413-2428). `none` means the request
is authorized; `some 401` is the unauthorized error response. Every REST
handler of the authenticated surface (api_list_sessions, api_create_session,
api_get_buffer, api_start_session, api_interrupt_session) starts with
`if let Some(err) = check_auth(&headers) { return err; }`. -/
def check_auth (devices : List (String × PairedDevice))
    (headers : List (String × String)) : Option Nat :=
  if devices.isEmpty then none
  else
    match extract_token headers with
    | some token => if is_valid_token devices token then none else some 401
    | none => some 401

/-- Outcome of a WebSocket upgrade request. -/
inductive UpgradeDecision
  | accept
  | reject
deriving Repr, DecidableEq

/-- Translation of `ws_handler` (GET /api/ws/{id}, lib.rs 3134-3139): the
handler receives only the path and the upgrade token and unconditionally
calls `ws.on_upgrade`; no header or token is consulted, so the upgrade is
always accepted, whatever the paired-devices table holds. -/
def ws_handler (_devices : List (String × PairedDevice))
    (_headers : List (String × String)) (_session_id : String) :
    UpgradeDecision :=
  .accept

/-- Translation of `ws_status_handler` (GET /api/ws/status, lib.rs
3349-3351): unconditional `ws.on_upgrade`, no auth check. -/
def ws_status_handler (_devices : List (String × PairedDevice))
    (_headers : List (String × String)) : UpgradeDecision :=
  .accept

/-- Translation of `ws_mobile_handler` (GET /api/ws/mobile, lib.rs
3401-3403): unconditional `ws.on_upgrade`; authentication happens only later,
in-band, through `auth` frames. -/
def ws_mobile_handler (_devices : List (String × PairedDevice))
    (_headers : List (String × String)) : UpgradeDecision :=
  .accept

/-- Translation of the `auth` arm of `handle_ws_mobile` (lib.rs 3467-3530):
the frame authenticates the client iff no device is paired (first-time setup)
or the supplied token is valid. -/
def mobile_auth_frame (devices : List (String × PairedDevice))
    (token : String) : Bool :=
  devices.isEmpty || is_valid_token devices token

/-- Claim C1 as stated: for every request to the listed authenticated
endpoints — the REST surface gated by `check_auth` and the three WebSocket
endpoints — a request that does not present a bearer token of the
paired-devices table is rejected whenever that table is non-empty. -/
def claimC1 : Prop :=
  ∀ (devices : List (String × PairedDevice))
    (headers : List (String × String)),
    devices ≠ [] →
    (∀ t, extract_token headers = some t → is_valid_token devices t = false) →
    check_auth devices headers ≠ none ∧
    (∀ sid, ws_handler devices headers sid = .reject) ∧
    ws_status_handler devices headers = .reject ∧
    ws_mobile_handler devices headers = .reject

/-! ### Pairing completion (`api_pair`) -/

/-- Response of POST /api/auth/pair. -/
inductive PairResult
  | badRequest
  | unauthorized
  | ok (token : String) (device_id : String)
deriving Repr, DecidableEq

/-- In-memory authentication state: the PAIRING_REQUESTS and PAIRED_DEVICES
tables (lib.rs 100-105). -/
structure AuthState where
  PAIRING_REQUESTS : List (String × PairingRequest)
  PAIRED_DEVICES : List (String × PairedDevice)
deriving Repr

/-- Translation of `api_pair` (lib.rs 2468-2538). `now` is the current time
in seconds; `fresh_token` and `fresh_device_id` are the two `generate_token()`
results; `now_str` is the RFC 3339 rendering of the current time. The request
succeeds iff the pairing request exists, its code matches and its age in whole
seconds is `< 300`; on success the request is removed and the new device is
stored in memory and in the database keyed by the fresh token. -/
def api_pair (st : AuthState) (db : Db) (pairing_id : Option String)
    (code : Option String) (device_name : Option String) (now : Int)
    (fresh_token fresh_device_id : String) (now_str : String) :
    PairResult × AuthState × Db :=
  match pairing_id, code with
  | some p, some c =>
    let valid :=
      match alookup p st.PAIRING_REQUESTS with
      | some request => request.code == c && decide (now - request.created_at < 300)
      | none => false
    if valid then
      let device : PairedDevice :=
        { id := fresh_device_id
          name := device_name.getD "Mobile Device"
          paired_at := now_str
          last_seen := now_str }
      (.ok fresh_token fresh_device_id,
       { st with
           PAIRING_REQUESTS := aerase p st.PAIRING_REQUESTS
           PAIRED_DEVICES := ainsert fresh_token device st.PAIRED_DEVICES },
       { db with paired_devices := ainsert fresh_token device db.paired_devices })
    else
      (.unauthorized, st, db)
  | _, _ => (.badRequest, st, db)

/-! ### PIN login (`api_pin_login`) -/

/-- Response of POST /api/auth/pin-login. -/
inductive PinResult
  | badRequest (why : String)
  | unauthorized
  | tooManyRequests
  | ok (token : String) (device_id : String)
deriving Repr, DecidableEq

/-- Full outcome of a pin-login call: response plus the updated
PIN_RATE_LIMIT table, PAIRED_DEVICES table and database. -/
structure PinLoginOut where
  result : PinResult
  rate : List (String × Nat × Nat)
  devices : List (String × PairedDevice)
  db : Db
deriving Repr

/-- Translation of `api_pin_login` (lib.rs 2551-2648). The PIN_RATE_LIMIT
table maps a client IP to `(attempts, last_time)` where `last_time` is the
`Instant` of the most recent recorded failure; `now - last_time` models
`Instant::elapsed` (saturating, hence truncated Nat subtraction).
Order of operations, as in the source: (1) 429 when an entry has
`elapsed < 900` and `attempts >= 5`; otherwise drop the entry when
`elapsed >= 900`; (2) 400 when the pin field is missing; (3) 400 when no PIN
is configured in the settings; (4) on a wrong pin, record the failure as
`(attempts + 1, now)` (creating `(1, now)` when absent); (5) on a correct pin,
remove the entry and mint a device. -/
def api_pin_login (rate0 : List (String × Nat × Nat))
    (devices : List (String × PairedDevice)) (db : Db) (client_ip : String)
    (pin : Option String) (device_name : Option String)
    (remote_pin : Option String) (now : Nat)
    (fresh_token fresh_device_id : String) (now_str : String) : PinLoginOut :=
  let gate : Bool :=
    match alookup client_ip rate0 with
    | some (attempts, last_time) =>
      decide (now - last_time < 900) && decide (5 ≤ attempts)
    | none => false
  if gate then
    ⟨.tooManyRequests, rate0, devices, db⟩
  else
    let rate1 :=
      match alookup client_ip rate0 with
      | some (_, last_time) =>
        if 900 ≤ now - last_time then aerase client_ip rate0 else rate0
      | none => rate0
    match pin with
    | none => ⟨.badRequest "missing_pin", rate1, devices, db⟩
    | some pin =>
      match remote_pin with
      | none => ⟨.badRequest "pin_not_configured", rate1, devices, db⟩
      | some configured =>
        if configured == pin then
          let device : PairedDevice :=
            { id := fresh_device_id
              name := device_name.getD "Mobile Device (PIN)"
              paired_at := now_str
              last_seen := now_str }
          ⟨.ok fresh_token fresh_device_id, aerase client_ip rate1,
           ainsert fresh_token device devices,
           { db with paired_devices := ainsert fresh_token device db.paired_devices }⟩
        else
          let rate2 :=
            match alookup client_ip rate1 with
            | some (a, _) => ainsert client_ip (a + 1, now) rate1
            | none => ainsert client_ip (1, now) rate1
          ⟨.unauthorized, rate2, devices, db⟩

/-! ### The live-session registry and the broadcaster tables -/

/-- Live JSON child handle (struct `JsonProcess`, lib.rs): the pid of the
spawned child (0 when unknown). -/
structure JsonProcess where
  child_id : Nat
deriving Repr, DecidableEq

/-- The four in-memory live tables (lib.rs 58-81). For PTY_SESSIONS and the
two broadcaster tables only the key set is ever consulted by the modelled
operations, so they are key lists; JSON_PROCESSES keeps its pid payload. -/
structure LiveState where
  PTY_SESSIONS : List String
  PTY_BROADCASTERS : List String
  JSON_PROCESSES : List (String × JsonProcess)
  JSON_BROADCASTERS : List String
deriving Repr, DecidableEq

/-- Registration effect of `spawn_pty` (lib.rs 1440-1447): insert the session
handle into PTY_SESSIONS and the broadcast sender into PTY_BROADCASTERS. -/
def spawn_pty (st : LiveState) (session_id : String) : LiveState :=
  { st with
      PTY_SESSIONS := sinsert session_id st.PTY_SESSIONS
      PTY_BROADCASTERS := sinsert session_id st.PTY_BROADCASTERS }

/-- Cleanup run by the PTY reader thread on EOF or read error
(lib.rs 1533-1543): remove the session from both PTY tables. -/
def pty_reader_cleanup (st : LiveState) (session_id : String) : LiveState :=
  { st with
      PTY_SESSIONS := serase session_id st.PTY_SESSIONS
      PTY_BROADCASTERS := serase session_id st.PTY_BROADCASTERS }

/-- Translation of `kill_pty` (lib.rs 1588-1594): it removes the session from
PTY_SESSIONS only; PTY_BROADCASTERS is not touched here (it is removed later,
by the reader-thread cleanup, once the child actually exits). -/
def kill_pty (st : LiveState) (session_id : String) : LiveState :=
  { st with PTY_SESSIONS := serase session_id st.PTY_SESSIONS }

/-- Registration effect of `spawn_json_process` (lib.rs 1690-1701): insert
the process handle into JSON_PROCESSES and the broadcast sender into
JSON_BROADCASTERS. -/
def spawn_json_process (st : LiveState) (session_id : String)
    (child_id : Nat) : LiveState :=
  { st with
      JSON_PROCESSES := ainsert session_id ⟨child_id⟩ st.JSON_PROCESSES
      JSON_BROADCASTERS := sinsert session_id st.JSON_BROADCASTERS }

/-- Cleanup run after the JSON child exits (lib.rs 1832-1840): remove the
session from both JSON tables. -/
def json_process_cleanup (st : LiveState) (session_id : String) : LiveState :=
  { st with
      JSON_PROCESSES := aerase session_id st.JSON_PROCESSES
      JSON_BROADCASTERS := serase session_id st.JSON_BROADCASTERS }

/-- Translation of `kill_json_process` (lib.rs 1902-1918): it removes the
entry from JSON_PROCESSES only (and signals the child); JSON_BROADCASTERS is
removed later by the exit cleanup. -/
def kill_json_process (st : LiveState) (session_id : String) : LiveState :=
  { st with JSON_PROCESSES := aerase session_id st.JSON_PROCESSES }

/-- The key-set invariant of spec §3: each live-session table holds exactly
the same session ids as its broadcaster table. -/
def mapsInSync (st : LiveState) : Prop :=
  (∀ id, id ∈ st.PTY_SESSIONS ↔ id ∈ st.PTY_BROADCASTERS) ∧
  (∀ id, (alookup id st.JSON_PROCESSES).isSome = true ↔ id ∈ st.JSON_BROADCASTERS)

/-- Claim C2 as stated: every operation that inserts or removes a session id
— spawn, exit cleanup, and kill — updates both maps of its variant, so the
key-set invariant is preserved by each of them. -/
def claimC2 : Prop :=
  ∀ (st : LiveState) (id : String) (pid : Nat),
    mapsInSync st →
    mapsInSync (spawn_pty st id) ∧
    mapsInSync (pty_reader_cleanup st id) ∧
    mapsInSync (kill_pty st id) ∧
    mapsInSync (spawn_json_process st id pid) ∧
    mapsInSync (json_process_cleanup st id) ∧
    mapsInSync (kill_json_process st id)

/-! ### Scrollback persistence: base64 and the terminal_buffers table -/

/-- Value-to-character table of the base64 STANDARD engine (RFC 4648),
modelling the external base64 crate used at lib.rs 1934 and 1964. -/
def b64Char (n : Nat) : Char :=
  if n < 26 then Char.ofNat (65 + n)
  else if n < 52 then Char.ofNat (97 + (n - 26))
  else if n < 62 then Char.ofNat (48 + (n - 52))
  else if n = 62 then '+'
  else '/'

/-- Character-to-value table of the base64 STANDARD engine. -/
def b64CharVal? (c : Char) : Option Nat :=
  if 'A' ≤ c ∧ c ≤ 'Z' then some (c.toNat - 65)
  else if 'a' ≤ c ∧ c ≤ 'z' then some (c.toNat - 97 + 26)
  else if '0' ≤ c ∧ c ≤ '9' then some (c.toNat - 48 + 52)
  else if c = '+' then some 62
  else if c = '/' then some 63
  else none

/-- RFC 4648 base64 encoding with padding (`BASE64.encode`): three bytes to
four characters, remainders padded with `=`. -/
def b64Encode : List Nat → List Char
  | a :: b :: c :: rest =>
    b64Char (a / 4) :: b64Char (a % 4 * 16 + b / 16) ::
      b64Char (b % 16 * 4 + c / 64) :: b64Char (c % 64) :: b64Encode rest
  | [a, b] => [b64Char (a / 4), b64Char (a % 4 * 16 + b / 16), b64Char (b % 16 * 4), '=']
  | [a] => [b64Char (a / 4), b64Char (a % 4 * 16), '=', '=']
  | [] => []

/-- RFC 4648 base64 decoding with padding (`BASE64.decode`); `none` models a
decode error. -/
def b64Decode : List Char → Option (List Nat)
  | [] => some []
  | c1 :: c2 :: c3 :: c4 :: rest =>
    match b64CharVal? c1, b64CharVal? c2 with
    | some v1, some v2 =>
      if c3 = '=' then
        if c4 = '=' then
          if rest = [] then some [v1 * 4 + v2 / 16] else none
        else none
      else
        match b64CharVal? c3 with
        | some v3 =>
          if c4 = '=' then
            if rest = [] then some [v1 * 4 + v2 / 16, v2 % 16 * 16 + v3 / 4]
            else none
          else
            match b64CharVal? c4, b64Decode rest with
            | some v4, some tail =>
              some ((v1 * 4 + v2 / 16) :: (v2 % 16 * 16 + v3 / 4) ::
                    (v3 % 4 * 64 + v4) :: tail)
            | _, _ => none
        | none => none
    | _, _ => none
  | _ => none

/-- Translation of `save_terminal_buffer` (lib.rs 1922-1947): gzip-compress
the content (`gzip_compress` stands for the external flate2 encoder), base64
encode, and INSERT OR REPLACE into `terminal_buffers` keyed by the session
id. -/
def save_terminal_buffer (gzip_compress : String → List Nat) (db : Db)
    (session_id : String) (buffer_content : String) (now_str : String) : Db :=
  let compressed := gzip_compress buffer_content
  let encoded := String.mk (b64Encode compressed)
  { db with
      terminal_buffers :=
        ainsert session_id ⟨encoded, now_str⟩ db.terminal_buffers }

/-- Translation of `load_terminal_buffer` (lib.rs 1951-1980): select the row,
base64 decode, gzip-decompress (`gzip_decompress` stands for the external
flate2 decoder plus the UTF-8 check of `read_to_string`); a missing row is
`Ok(None)`. -/
def load_terminal_buffer (gzip_decompress : List Nat → Except String String)
    (db : Db) (session_id : String) : Except String (Option String) :=
  match alookup session_id db.terminal_buffers with
  | none => .ok none
  | some row =>
    match b64Decode row.buffer_data.data with
    | none => .error "Failed to decode buffer"
    | some compressed =>
      match gzip_decompress compressed with
      | .error e => .error e
      | .ok s => .ok (some s)

/-- Concrete compressor used to witness the gzip contract: each character is
flattened to three bytes, little-endian over its code point. -/
def chr3_encode_chars : List Char → List Nat
  | [] => []
  | c :: rest =>
    c.toNat % 256 :: c.toNat / 256 % 256 :: c.toNat / 65536 ::
      chr3_encode_chars rest

/-- Concrete witness compressor (a stand-in satisfying the flate2 round-trip
contract; it performs no actual compression). -/
def chr3_compress (s : String) : List Nat :=
  chr3_encode_chars s.data

/-- Inverse of `chr3_encode_chars`. -/
def chr3_bytes_to_chars : List Nat → List Char
  | b0 :: b1 :: b2 :: rest =>
    Char.ofNat (b0 + 256 * b1 + 65536 * b2) :: chr3_bytes_to_chars rest
  | _ => []

/-- Concrete witness decompressor, inverse of `chr3_compress`. -/
def chr3_decompress (l : List Nat) : Except String String :=
  .ok (String.mk (chr3_bytes_to_chars l))

/-! ### Session deletion and the declared cascade -/

/-- Translation of `delete_session` (lib.rs 834-845) as executed: a single
`DELETE FROM sessions WHERE id = ?1`. The `terminal_buffers` schema declares
`FOREIGN KEY (session_id) REFERENCES sessions(id) ON DELETE CASCADE`
(lib.rs 586-591), but no connection ever issues `PRAGMA foreign_keys = ON`,
and SQLite leaves foreign-key enforcement off by default, so the executed
delete touches only the `sessions` table. -/
def delete_session (db : Db) (session_id : String) : Db :=
  { db with sessions := db.sessions.filter (fun s => s.id != session_id) }

/-- The behaviour claim C8 ascribes to `delete_session`: the declared
ON DELETE CASCADE also removes the scrollback row of the deleted session.
Modelled from the spec sentence, for comparison with the executed
`delete_session`. -/
def delete_session_with_cascade (db : Db) (session_id : String) : Db :=
  { db with
      sessions := db.sessions.filter (fun s => s.id != session_id)
      terminal_buffers := aerase session_id db.terminal_buffers }

/-! ### Recently-closed cap -/

/-- Comparator of `ORDER BY closed_at DESC`. -/
def rcMoreRecent (a b : RecentlyClosedData) : Bool :=
  decide (b.closed_at ≤ a.closed_at)

/-- Translation of `save_recently_closed` (lib.rs 944-972): INSERT OR REPLACE
the closed session (keyed by id), then delete every row whose id is not among
the first ten of `ORDER BY closed_at DESC`. -/
def save_recently_closed (db : Db) (session : RecentlyClosedData) : Db :=
  let inserted :=
    session :: db.recently_closed.filter (fun r => r.id != session.id)
  let keep_ids := ((inserted.mergeSort rcMoreRecent).take 10).map (·.id)
  { db with
      recently_closed := inserted.filter (fun r => keep_ids.contains r.id) }

/-- Ids of a recently-closed table. -/
def rc_ids (l : List RecentlyClosedData) : List String :=
  l.map (·.id)

/-! ### Session start, interrupt, create -/

/-- Response status of POST /api/sessions/{id}/start. -/
inductive StartStatus
  | alreadyRunning
  | started
  | notFound
deriving Repr, DecidableEq

/-- Core of `api_start_session` (lib.rs 2860-2950), after the `check_auth`
gate: report `already_running` when either broadcaster table holds the id;
otherwise look the session up in the database and spawn the matching variant.
The third component counts spawned children. `json_pid` is the pid the JSON
spawn would register. -/
def api_start_session (st : LiveState) (db : Db) (session_id : String)
    (json_pid : Nat) : StartStatus × LiveState × Nat :=
  if st.PTY_BROADCASTERS.contains session_id then (.alreadyRunning, st, 0)
  else if st.JSON_BROADCASTERS.contains session_id then (.alreadyRunning, st, 0)
  else
    match db.sessions.find? (fun s => s.id == session_id) with
    | none => (.notFound, st, 0)
    | some session =>
      if session.agent_type == "claude-json" then
        if st.JSON_BROADCASTERS.contains session_id then (.alreadyRunning, st, 0)
        else (.started, spawn_json_process st session_id json_pid, 1)
      else (.started, spawn_pty st session_id, 1)

/-- Observable process-level side effect of an interrupt. -/
inductive Effect
  | sigint (pid : Nat)
  | ptyWrite (bytes : List Nat)
deriving Repr, DecidableEq

/-- Response status of POST /api/sessions/{id}/interrupt. -/
inductive InterruptStatus
  | interrupted
  | notFound
deriving Repr, DecidableEq

/-- Core of `api_interrupt_session` (lib.rs 2969-3017), after the
`check_auth` gate: a session in JSON_BROADCASTERS gets SIGINT delivered to
its recorded pid; otherwise a session in PTY_BROADCASTERS gets a single ETX
(0x03) byte written to its PTY master. -/
def api_interrupt_session (st : LiveState) (session_id : String) :
    InterruptStatus × List Effect :=
  if st.JSON_BROADCASTERS.contains session_id then
    match alookup session_id st.JSON_PROCESSES with
    | some process =>
      if 0 < process.child_id then (.interrupted, [.sigint process.child_id])
      else (.notFound, [])
    | none => (.notFound, [])
  else if st.PTY_BROADCASTERS.contains session_id then
    if st.PTY_SESSIONS.contains session_id then
      (.interrupted, [.ptyWrite [0x03]])
    else (.notFound, [])
  else (.notFound, [])

/-- Translation of `interrupt_json_process` (lib.rs 1886-1897): SIGINT the
recorded pid when the session has a JSON process entry with pid > 0; no
effect otherwise. -/
def interrupt_json_process (st : LiveState) (session_id : String) :
    List Effect :=
  match alookup session_id st.JSON_PROCESSES with
  | some process =>
    if 0 < process.child_id then [.sigint process.child_id] else []
  | none => []

/-- Translation of the `interrupt` arm of `handle_ws_mobile`
(lib.rs 3641-3650): when authenticated and a session id is supplied, call
`interrupt_json_process` — and nothing else; no PTY path exists here. -/
def mobile_interrupt_frame (st : LiveState) (authenticated : Bool)
    (session_id : String) : List Effect :=
  if !authenticated then []
  else if session_id == "" then []
  else interrupt_json_process st session_id

/-- Claim C7 as stated: both interrupt entry points — the REST endpoint and
the mobile WebSocket frame — deliver SIGINT for a live JSON session and write
exactly one ETX byte for a live PTY session. -/
def claimC7 : Prop :=
  ∀ (st : LiveState) (sid : String),
    (∀ p, st.JSON_BROADCASTERS.contains sid = true →
      alookup sid st.JSON_PROCESSES = some p → 0 < p.child_id →
      (api_interrupt_session st sid).2 = [.sigint p.child_id] ∧
      mobile_interrupt_frame st true sid = [.sigint p.child_id]) ∧
    (st.JSON_BROADCASTERS.contains sid = false →
      st.PTY_BROADCASTERS.contains sid = true →
      st.PTY_SESSIONS.contains sid = true →
      (api_interrupt_session st sid).2 = [.ptyWrite [0x03]] ∧
      mobile_interrupt_frame st true sid = [.ptyWrite [0x03]])

/-- Translation of the command table of `api_create_session`
(lib.rs 2766-2773). `shell_env` is the `SHELL` environment variable. -/
def agent_command (agent_type : String) (custom_command : Option String)
    (shell_env : Option String) : String :=
  match agent_type with
  | "claude" => "claude --dangerously-skip-permissions"
  | "claude-json" =>
    "claude --print --verbose --input-format stream-json --output-format stream-json --dangerously-skip-permissions"
  | "aider" => "aider"
  | "shell" => shell_env.getD "/bin/zsh"
  | "custom" => custom_command.getD "/bin/zsh"
  | _ => "claude --dangerously-skip-permissions"

/-- Translation of the auto-name label table of `api_create_session`
(lib.rs 2779-2786). -/
def agent_label (agent_type : String) : String :=
  match agent_type with
  | "claude" => "Claude"
  | "claude-json" => "Claude Chat"
  | "aider" => "Aider"
  | "shell" => "Shell"
  | "custom" => "Custom"
  | _ => "Session"

/-- Translation of `save_session` (lib.rs 781-819): INSERT OR REPLACE keyed
by the session id. -/
def save_session (db : Db) (s : SessionRow) : Db :=
  { db with sessions := s :: db.sessions.filter (fun r => r.id != s.id) }

/-- Core of `api_create_session` (lib.rs 2749-2841), after the `check_auth`
gate: defaults — agent_type `claude`, working_dir `~/dev/pplsi` —, command
and auto-name from the tables above, sort order one below the current
minimum, and the new row saved. Returns the created row and the updated
database. -/
def api_create_session (db : Db) (name : Option String)
    (agent_type_field : Option String) (custom_command : Option String)
    (working_dir_field : Option String) (folder_id : Option String)
    (shell_env : Option String) (fresh_session_id : String)
    (now_str : String) : SessionRow × Db :=
  let agent_type := agent_type_field.getD "claude"
  let working_dir := working_dir_field.getD "~/dev/pplsi"
  let command := agent_command agent_type custom_command shell_env
  let session_name :=
    name.getD (agent_label agent_type ++ " " ++ toString (db.sessions.length + 1))
  let min_sort_order := ((db.sessions.map (·.sort_order)).min?).getD 0
  let session : SessionRow :=
    { id := fresh_session_id
      name := session_name
      agent_type := agent_type
      command := command
      working_dir := working_dir
      created_at := now_str
      claude_session_id := none
      sort_order := min_sort_order - 1
      folder_id := folder_id }
  (session, save_session db session)

end AgentHub

namespace AgentHub

/-! ### Association-list and key-list lemmas -/

theorem alookup_filter_key {α : Type} (k k2 : String) (l : List (String × α)) :
    alookup k (l.filter (fun p => p.1 != k2)) =
      if k = k2 then none else alookup k l := by
  induction l with
  | nil => simp [alookup]
  | cons p rest ih =>
    obtain ⟨k3, v⟩ := p
    by_cases h3 : k3 = k2
    · subst h3
      by_cases h4 : k3 = k
      · subst h4; simp [alookup, ih]
      · simp [alookup, h4, ih]
    · by_cases h4 : k3 = k
      · subst h4
        simp [alookup, h3, bne_iff_ne, if_neg h3]
      · simp [alookup, h3, h4, bne_iff_ne, ih]

theorem alookup_ainsert {α : Type} (a k : String) (v : α)
    (l : List (String × α)) :
    alookup a (ainsert k v l) = if a = k then some v else alookup a l := by
  by_cases h : a = k
  · subst h; simp [ainsert, alookup]
  · simp only [ainsert, alookup]
    rw [if_neg (fun hh => h hh.symm), alookup_filter_key]
    simp [h]

theorem alookup_aerase {α : Type} (a k : String) (l : List (String × α)) :
    alookup a (aerase k l) = if a = k then none else alookup a l := by
  simpa [aerase] using alookup_filter_key a k l

theorem mem_sinsert {a k : String} {l : List String} :
    a ∈ sinsert k l ↔ a = k ∨ a ∈ l := by
  simp only [sinsert, List.mem_cons, List.mem_filter, bne_iff_ne]
  constructor
  · rintro (h | ⟨h, _⟩)
    · exact Or.inl h
    · exact Or.inr h
  · rintro (h | h)
    · exact Or.inl h
    · by_cases hk : a = k
      · exact Or.inl hk
      · exact Or.inr ⟨h, hk⟩

theorem mem_serase {a k : String} {l : List String} :
    a ∈ serase k l ↔ a ∈ l ∧ a ≠ k := by
  simp [serase, List.mem_filter, bne_iff_ne]

/-! ### C1: authentication of the REST and WebSocket surfaces -/

/-- Claim C1 does not hold of the code: with one paired device and a request
presenting no token, the per-session WebSocket upgrade is still accepted —
`ws_handler` never consults the headers or the paired-devices table. -/
theorem C1_counterexample : ¬ claimC1 := by
  intro h
  have h2 := h [("tok", ⟨"d", "n", "p", "l"⟩)] [] (by simp)
    (by intro t ht; simp [extract_token, alookup] at ht)
  exact absurd (h2.2.1 "s") (by simp [ws_handler])

/-- Claim C1 (amended): the five REST endpoints, all gated by `check_auth`,
authorize a request iff the paired-devices table is empty or the request
bears a token of that table; the three WebSocket endpoints accept every
upgrade request without any bearer-token check (the mobile socket
authenticates only in-band: its `auth` frame succeeds iff no device is
paired or the supplied token is valid). -/
theorem check_auth_rest_iff_ws_open :
    ∀ (devices : List (String × PairedDevice))
      (headers : List (String × String)),
      (check_auth devices headers = none ↔
        (devices = [] ∨
          ∃ t, extract_token headers = some t ∧
               is_valid_token devices t = true)) ∧
      (∀ sid, ws_handler devices headers sid = .accept) ∧
      ws_status_handler devices headers = .accept ∧
      ws_mobile_handler devices headers = .accept ∧
      (∀ token, mobile_auth_frame devices token =
        (devices.isEmpty || is_valid_token devices token)) := by
  intro devices headers
  refine ⟨?_, fun _ => rfl, rfl, rfl, fun _ => rfl⟩
  by_cases hd : devices.isEmpty
  · simp [check_auth, hd, List.isEmpty_iff.mp hd]
  · have hne : devices ≠ [] := fun h => hd (by simp [h])
    cases het : extract_token headers with
    | none => simp [check_auth, hd, het, hne]
    | some t =>
      cases hv : is_valid_token devices t with
      | true => simp [check_auth, hd, het, hv]
      | false =>
        have hca : check_auth devices headers = some 401 := by
          simp [check_auth, hd, het, hv]
        rw [hca]
        constructor
        · intro h; exact Option.noConfusion h
        · rintro (h | ⟨t2, ht2, hv2⟩)
          · exact absurd h hne
          · injection ht2 with h2
            subst h2
            rw [hv] at hv2
            exact Bool.noConfusion hv2

/-! ### C2: live-session tables versus broadcaster tables -/

/-- Claim C2 does not hold of the code: `kill_pty` removes the session from
PTY_SESSIONS but not from PTY_BROADCASTERS, so a state observable between the
kill and the reader-thread cleanup has the id in the broadcaster table only. -/
theorem C2_counterexample : ¬ claimC2 := by
  intro h
  have hsync : mapsInSync ⟨["s"], ["s"], [], []⟩ := by
    constructor
    · intro a; simp
    · intro a; simp [alookup]
  have h2 := (h ⟨["s"], ["s"], [], []⟩ "s" 0 hsync).2.2.1
  have h3 := h2.1 "s"
  simp [kill_pty, serase, List.filter] at h3

/-- Claim C2 (amended): the spawn registrations and the exit cleanups update
both tables of their variant, preserving the key-set invariant; the two kill
commands, however, remove only the live-session entry and leave the
broadcaster table untouched (the broadcaster entry is removed later by the
exit-cleanup path), so in the state directly after a kill the broadcaster
table can hold an id the live table no longer has. -/
theorem live_tables_sync :
    ∀ (st : LiveState) (id : String) (pid : Nat),
      (mapsInSync st → mapsInSync (spawn_pty st id)) ∧
      (mapsInSync st → mapsInSync (pty_reader_cleanup st id)) ∧
      (mapsInSync st → mapsInSync (spawn_json_process st id pid)) ∧
      (mapsInSync st → mapsInSync (json_process_cleanup st id)) ∧
      (kill_pty st id).PTY_BROADCASTERS = st.PTY_BROADCASTERS ∧
      (kill_pty st id).PTY_SESSIONS = serase id st.PTY_SESSIONS ∧
      (kill_json_process st id).JSON_BROADCASTERS = st.JSON_BROADCASTERS ∧
      (kill_json_process st id).JSON_PROCESSES = aerase id st.JSON_PROCESSES := by
  intro st id pid
  refine ⟨?_, ?_, ?_, ?_, rfl, rfl, rfl, rfl⟩
  · rintro ⟨h1, h2⟩
    exact ⟨fun a => by simp [spawn_pty, mem_sinsert, h1 a], fun a => h2 a⟩
  · rintro ⟨h1, h2⟩
    exact ⟨fun a => by simp [pty_reader_cleanup, mem_serase, h1 a],
           fun a => h2 a⟩
  · rintro ⟨h1, h2⟩
    refine ⟨fun a => h1 a, fun a => ?_⟩
    simp [spawn_json_process, mem_sinsert, alookup_ainsert]
    by_cases ha : a = id
    · simp [ha]
    · simp [ha, h2 a]
  · rintro ⟨h1, h2⟩
    refine ⟨fun a => h1 a, fun a => ?_⟩
    simp [json_process_cleanup, mem_serase, alookup_aerase]
    by_cases ha : a = id
    · simp [ha]
    · simp [ha, h2 a]

end AgentHub

namespace AgentHub

/-! ### C3: pairing completion -/

/-- Claim C3: complete-pairing succeeds iff the pairing request exists, its
code matches, and its age is strictly under 300 seconds; a request aged 300 s
or more never succeeds; on success the pairing entry is removed and the
freshly minted token and device id are stored in memory and in the database
and returned. -/
theorem api_pair_spec :
    ∀ (st : AuthState) (db : Db) (p c : String) (dn : Option String)
      (now : Int) (ftok fid ns : String),
      ((api_pair st db (some p) (some c) dn now ftok fid ns).1 = .ok ftok fid ↔
        ∃ r, alookup p st.PAIRING_REQUESTS = some r ∧ r.code = c ∧
             now - r.created_at < 300) ∧
      (∀ r, alookup p st.PAIRING_REQUESTS = some r →
        300 ≤ now - r.created_at →
        (api_pair st db (some p) (some c) dn now ftok fid ns).1 = .unauthorized) ∧
      (∀ r, alookup p st.PAIRING_REQUESTS = some r → r.code = c →
        now - r.created_at < 300 →
        alookup p
          (api_pair st db (some p) (some c) dn now ftok fid ns).2.1.PAIRING_REQUESTS
          = none ∧
        alookup ftok
          (api_pair st db (some p) (some c) dn now ftok fid ns).2.1.PAIRED_DEVICES
          = some ⟨fid, dn.getD "Mobile Device", ns, ns⟩ ∧
        alookup ftok
          (api_pair st db (some p) (some c) dn now ftok fid ns).2.2.paired_devices
          = some ⟨fid, dn.getD "Mobile Device", ns, ns⟩) := by
  intro st db p c dn now ftok fid ns
  refine ⟨?_, ?_, ?_⟩
  · cases hr : alookup p st.PAIRING_REQUESTS with
    | none => simp [api_pair, hr]
    | some r =>
      by_cases hc : r.code = c
      · by_cases ht : now - r.created_at < 300
        · simp [api_pair, hr, hc, ht]
        · simp [api_pair, hr, hc, ht]
      · simp [api_pair, hr, hc]
  · intro r hr ht
    have hnt : ¬ (now - r.created_at < 300) := not_lt.mpr ht
    simp [api_pair, hr, hnt]
  · intro r hr hc ht
    simp [api_pair, hr, hc, ht, alookup_aerase, alookup_ainsert]

/-- Witness for C3: a concrete pairing request aged 100 s with matching code
succeeds, and afterwards the request entry is gone. -/
theorem api_pair_witness :
    (api_pair ⟨[("p1", ⟨"123456", 0, none⟩)], []⟩ emptyDb (some "p1")
        (some "123456") none 100 "tok" "dev" "ts").1 = .ok "tok" "dev" ∧
    alookup "p1"
      (api_pair ⟨[("p1", ⟨"123456", 0, none⟩)], []⟩ emptyDb (some "p1")
        (some "123456") none 100 "tok" "dev" "ts").2.1.PAIRING_REQUESTS
      = none := by
  have h := api_pair_spec ⟨[("p1", ⟨"123456", 0, none⟩)], []⟩ emptyDb "p1"
    "123456" none 100 "tok" "dev" "ts"
  refine ⟨h.1.mpr ⟨⟨"123456", 0, none⟩, by simp [alookup], rfl, by norm_num⟩, ?_⟩
  exact (h.2.2 ⟨"123456", 0, none⟩ (by simp [alookup]) rfl (by norm_num)).1

/-! ### C4: PIN login rate limiting -/

/-- Helper: a failed attempt with no recorded counter records `(1, now)`. -/
theorem pin_fail_step_none (rate0 : List (String × Nat × Nat))
    (devices : List (String × PairedDevice)) (db : Db) (ip : String)
    (wrong : String) (dn : Option String) (P : String) (now : Nat)
    (ftok fid ns : String) (h0 : alookup ip rate0 = none) (hw : P ≠ wrong) :
    api_pin_login rate0 devices db ip (some wrong) dn (some P) now ftok fid ns =
      ⟨.unauthorized, ainsert ip (1, now) rate0, devices, db⟩ := by
  simp [api_pin_login, h0, hw]

/-- Helper: a failed attempt within the window with fewer than five recorded
failures increments the counter and moves its instant to `now`. -/
theorem pin_fail_step_some (rate0 : List (String × Nat × Nat))
    (devices : List (String × PairedDevice)) (db : Db) (ip : String)
    (wrong : String) (dn : Option String) (P : String) (now : Nat)
    (ftok fid ns : String) (a last : Nat)
    (h0 : alookup ip rate0 = some (a, last)) (ha : a < 5)
    (hlt : now - last < 900) (hw : P ≠ wrong) :
    api_pin_login rate0 devices db ip (some wrong) dn (some P) now ftok fid ns =
      ⟨.unauthorized, ainsert ip (a + 1, now) rate0, devices, db⟩ := by
  have h5 : ¬ (5 ≤ a) := by omega
  have h9 : ¬ (900 ≤ now - last) := by omega
  simp [api_pin_login, h0, h5, hlt, h9, hw]

/-- Claim C4: once an IP has five recorded failures inside the 900 s window,
every further attempt — whatever PIN it carries — gets 429 and changes
nothing, until 900 s have elapsed since the last failure; a correct PIN (when
not rate-limited) succeeds and removes the counter; and five consecutive
failed attempts, each within 900 s of the previous, drive the counter from
absent to `(5, t5)`, so the 429 window follows from the first part. -/
theorem api_pin_login_spec :
    (∀ (rate0 : List (String × Nat × Nat))
       (devices : List (String × PairedDevice)) (db : Db) (ip : String)
       (pin : Option String) (dn : Option String) (rpin : Option String)
       (now : Nat) (ftok fid ns : String) (a last : Nat),
       alookup ip rate0 = some (a, last) → 5 ≤ a → now - last < 900 →
       api_pin_login rate0 devices db ip pin dn rpin now ftok fid ns =
         ⟨.tooManyRequests, rate0, devices, db⟩) ∧
    (∀ (rate0 : List (String × Nat × Nat))
       (devices : List (String × PairedDevice)) (db : Db) (ip : String)
       (dn : Option String) (P : String) (now : Nat) (ftok fid ns : String),
       (∀ a last, alookup ip rate0 = some (a, last) →
          a < 5 ∨ 900 ≤ now - last) →
       (api_pin_login rate0 devices db ip (some P) dn (some P) now ftok fid ns).result
           = .ok ftok fid ∧
       alookup ip
         (api_pin_login rate0 devices db ip (some P) dn (some P) now ftok fid ns).rate
           = none) ∧
    (∀ (rate0 : List (String × Nat × Nat))
       (devices : List (String × PairedDevice)) (db : Db) (ip : String)
       (pin : Option String) (dn : Option String) (rpin : Option String)
       (now : Nat) (ftok fid ns : String) (a last : Nat),
       alookup ip rate0 = some (a, last) → 900 ≤ now - last →
       (api_pin_login rate0 devices db ip pin dn rpin now ftok fid ns).result
         ≠ .tooManyRequests) ∧
    (∀ (rate0 : List (String × Nat × Nat))
       (devices : List (String × PairedDevice)) (db : Db) (ip : String)
       (wrong : String) (dn : Option String) (P : String)
       (ftok fid ns : String) (t1 t2 t3 t4 t5 : Nat),
       alookup ip rate0 = none → P ≠ wrong →
       t2 - t1 < 900 → t3 - t2 < 900 → t4 - t3 < 900 → t5 - t4 < 900 →
       alookup ip
         (api_pin_login
           (api_pin_login
             (api_pin_login
               (api_pin_login
                 (api_pin_login rate0 devices db ip (some wrong) dn (some P)
                   t1 ftok fid ns).rate
                 devices db ip (some wrong) dn (some P) t2 ftok fid ns).rate
               devices db ip (some wrong) dn (some P) t3 ftok fid ns).rate
             devices db ip (some wrong) dn (some P) t4 ftok fid ns).rate
           devices db ip (some wrong) dn (some P) t5 ftok fid ns).rate
         = some (5, t5)) := by
  refine ⟨?_, ?_, ?_, ?_⟩
  · intro rate0 devices db ip pin dn rpin now ftok fid ns a last h0 ha hlt
    simp [api_pin_login, h0, ha, hlt]
  · intro rate0 devices db ip dn P now ftok fid ns hok
    cases h0 : alookup ip rate0 with
    | none => simp [api_pin_login, h0, alookup_aerase]
    | some al =>
      obtain ⟨a, last⟩ := al
      rcases hok a last h0 with ha | h9
      · have h5 : ¬ (5 ≤ a) := by omega
        simp [api_pin_login, h0, h5, alookup_aerase]
      · have hlt : ¬ (now - last < 900) := by omega
        simp [api_pin_login, h0, hlt, h9, alookup_aerase]
  · intro rate0 devices db ip pin dn rpin now ftok fid ns a last h0 h9
    have hlt : ¬ (now - last < 900) := by omega
    cases pin with
    | none => simp [api_pin_login, h0, hlt]
    | some pinv =>
      cases rpin with
      | none => simp [api_pin_login, h0, hlt]
      | some configured =>
        by_cases hcp : configured = pinv
        · simp [api_pin_login, h0, hlt, hcp]
        · simp [api_pin_login, h0, hlt, hcp]
  · intro rate0 devices db ip wrong dn P ftok fid ns t1 t2 t3 t4 t5 h0 hw
      g1 g2 g3 g4
    rw [pin_fail_step_none rate0 devices db ip wrong dn P t1 ftok fid ns h0 hw]
    rw [pin_fail_step_some _ devices db ip wrong dn P t2 ftok fid ns 1 t1
      (by simp [alookup_ainsert]) (by omega) g1 hw]
    rw [pin_fail_step_some _ devices db ip wrong dn P t3 ftok fid ns 2 t2
      (by simp [alookup_ainsert]) (by omega) g2 hw]
    rw [pin_fail_step_some _ devices db ip wrong dn P t4 ftok fid ns 3 t3
      (by simp [alookup_ainsert]) (by omega) g3 hw]
    rw [pin_fail_step_some _ devices db ip wrong dn P t5 ftok fid ns 4 t4
      (by simp [alookup_ainsert]) (by omega) g4 hw]
    simp [alookup_ainsert]

/-- Witness for C4: after five wrong-PIN attempts at seconds 0..4 from
client ip `"ip"`, the recorded counter is `(5, 4)`, so by the first part a
sixth attempt at second 10 — even with the correct PIN — returns 429; and a
correct login with a fresh counter succeeds and clears the entry. -/
theorem api_pin_login_witness :
    alookup "ip"
      (api_pin_login
        (api_pin_login
          (api_pin_login
            (api_pin_login
              (api_pin_login [] [] emptyDb "ip" (some "9999") none
                (some "1234") 0 "t" "d" "ts").rate
              [] emptyDb "ip" (some "9999") none (some "1234") 1 "t" "d" "ts").rate
            [] emptyDb "ip" (some "9999") none (some "1234") 2 "t" "d" "ts").rate
          [] emptyDb "ip" (some "9999") none (some "1234") 3 "t" "d" "ts").rate
        [] emptyDb "ip" (some "9999") none (some "1234") 4 "t" "d" "ts").rate
      = some (5, 4) ∧
    (api_pin_login [("ip", (5, 4))] [] emptyDb "ip" (some "1234") none
        (some "1234") 10 "t" "d" "ts").result = .tooManyRequests ∧
    (api_pin_login [] [] emptyDb "ip" (some "1234") none (some "1234") 10
        "t" "d" "ts").result = .ok "t" "d" := by
  have h := api_pin_login_spec
  refine ⟨?_, ?_, ?_⟩
  · exact h.2.2.2 [] [] emptyDb "ip" "9999" none "1234" "t" "d" "ts" 0 1 2 3 4
      (by simp [alookup]) (by decide) (by omega) (by omega) (by omega) (by omega)
  · have := h.1 [("ip", (5, 4))] [] emptyDb "ip" (some "1234") none
      (some "1234") 10 "t" "d" "ts" 5 4 (by simp [alookup]) (by omega) (by omega)
    rw [this]
  · exact (h.2.1 [] [] emptyDb "ip" none "1234" 10 "t" "d" "ts"
      (by intro a last hal; simp [alookup] at hal)).1

end AgentHub

namespace AgentHub

/-! ### C5: scrollback round-trip -/

theorem char_toNat_lt (c : Char) : c.toNat < 1114112 := by
  have h := c.valid
  simp only [Char.toNat]
  rcases h with h | ⟨h1, h2⟩ <;> omega

theorem b64CharVal_b64Char : ∀ v : Fin 64, b64CharVal? (b64Char v.val) = some v.val := by
  decide

theorem b64CharVal_b64Char' {v : Nat} (h : v < 64) :
    b64CharVal? (b64Char v) = some v :=
  b64CharVal_b64Char ⟨v, h⟩

theorem b64Char_ne_pad : ∀ v : Fin 64, b64Char v.val ≠ '=' := by
  decide

theorem b64Char_ne_pad' {v : Nat} (h : v < 64) : ¬ (b64Char v = '=') :=
  b64Char_ne_pad ⟨v, h⟩

/-- The modelled base64 STANDARD engine decodes what it encodes, for every
byte list. -/
theorem b64Decode_b64Encode :
    ∀ l : List Nat, (∀ b ∈ l, b < 256) → b64Decode (b64Encode l) = some l
  | [], _ => by simp [b64Encode, b64Decode]
  | [a], h => by
    have ha : a < 256 := h a (by simp)
    have h1 : a / 4 < 64 := by omega
    have h2 : a % 4 * 16 < 64 := by omega
    simp [b64Encode, b64Decode, b64CharVal_b64Char' h1, b64CharVal_b64Char' h2]
    omega
  | [a, b], h => by
    have ha : a < 256 := h a (by simp)
    have hb : b < 256 := h b (by simp)
    have h1 : a / 4 < 64 := by omega
    have h2 : a % 4 * 16 + b / 16 < 64 := by omega
    have h3 : b % 16 * 4 < 64 := by omega
    simp [b64Encode, b64Decode, b64CharVal_b64Char' h1, b64CharVal_b64Char' h2,
      b64CharVal_b64Char' h3, b64Char_ne_pad' h3]
    constructor <;> omega
  | a :: b :: c :: rest, h => by
    have ha : a < 256 := h a (by simp)
    have hb : b < 256 := h b (by simp)
    have hc : c < 256 := h c (by simp)
    have ih := b64Decode_b64Encode rest (fun x hx => h x (by simp [hx]))
    have h1 : a / 4 < 64 := by omega
    have h2 : a % 4 * 16 + b / 16 < 64 := by omega
    have h3 : b % 16 * 4 + c / 64 < 64 := by omega
    have h4 : c % 64 < 64 := by omega
    simp [b64Encode, b64Decode, b64CharVal_b64Char' h1, b64CharVal_b64Char' h2,
      b64CharVal_b64Char' h3, b64CharVal_b64Char' h4, b64Char_ne_pad' h3,
      b64Char_ne_pad' h4, ih]
    refine ⟨by omega, by omega, by omega⟩

theorem chr3_bytes_to_chars_encode :
    ∀ cs : List Char, chr3_bytes_to_chars (chr3_encode_chars cs) = cs
  | [] => rfl
  | c :: rest => by
    have ih := chr3_bytes_to_chars_encode rest
    have hsum : c.toNat % 256 + 256 * (c.toNat / 256 % 256) +
        65536 * (c.toNat / 65536) = c.toNat := by omega
    simp [chr3_encode_chars, chr3_bytes_to_chars, ih, hsum, Char.ofNat_toNat]

/-- The witness compressor satisfies the flate2 round-trip contract. -/
theorem chr3_roundtrip (s : String) :
    chr3_decompress (chr3_compress s) = .ok s := by
  simp [chr3_decompress, chr3_compress, chr3_bytes_to_chars_encode]

/-- The witness compressor produces bytes. -/
theorem chr3_bytes_lt (s : String) : ∀ b ∈ chr3_compress s, b < 256 := by
  suffices h : ∀ cs : List Char, ∀ b ∈ chr3_encode_chars cs, b < 256 from
    h s.data
  intro cs
  induction cs with
  | nil => simp [chr3_encode_chars]
  | cons c rest ih =>
    intro b hb
    have hlt := char_toNat_lt c
    simp only [chr3_encode_chars, List.mem_cons] at hb
    rcases hb with h | h | h | h
    · omega
    · omega
    · omega
    · exact ih b h

/-- Claim C5: with any gzip layer satisfying the flate2 round-trip contract
(decompression inverts compression; compressed output is bytes),
`save_terminal_buffer` followed by `load_terminal_buffer` on the same session
id returns `Ok(Some(x))` for every stored content `x` — the base64 layer is
inverted exactly, by `b64Decode_b64Encode`, for arbitrary byte values. -/
theorem save_load_terminal_buffer :
    ∀ (gzc : String → List Nat) (gzd : List Nat → Except String String),
      (∀ s, gzd (gzc s) = .ok s) →
      (∀ s b, b ∈ gzc s → b < 256) →
      ∀ (db : Db) (sid x ns : String),
        load_terminal_buffer gzd (save_terminal_buffer gzc db sid x ns) sid =
          .ok (some x) := by
  intro gzc gzd hinv hb db sid x ns
  have h1 : b64Decode (String.mk (b64Encode (gzc x))).data = some (gzc x) :=
    b64Decode_b64Encode (gzc x) (hb x)
  simp [save_terminal_buffer, load_terminal_buffer, alookup_ainsert, h1, hinv x]

/-- Witness for C5: a concrete save/load round trip through the concrete
witness gzip layer, on a content string containing a NUL and a multi-byte
character. -/
theorem save_load_terminal_buffer_witness :
    load_terminal_buffer chr3_decompress
      (save_terminal_buffer chr3_compress emptyDb "S" "h\x00é z" "t") "S" =
      .ok (some "h\x00é z") :=
  save_load_terminal_buffer chr3_compress chr3_decompress chr3_roundtrip
    chr3_bytes_lt emptyDb "S" "h\x00é z" "t"

end AgentHub

namespace AgentHub

/-! ### C6: starting an already-running session -/

theorem contains_sinsert_self (k : String) (l : List String) :
    (sinsert k l).contains k = true :=
  List.elem_iff.mpr (mem_sinsert.mpr (Or.inl rfl))

/-- Claim C6: when the session id is live in either broadcaster table, start
returns `already_running`, leaves the live state unchanged and spawns no
child; consequently a second start directly after a successful one is a
no-op. -/
theorem api_start_session_idempotent :
    ∀ (st : LiveState) (db : Db) (sid : String) (pid : Nat),
      (st.PTY_BROADCASTERS.contains sid = true ∨
          st.JSON_BROADCASTERS.contains sid = true →
        api_start_session st db sid pid = (.alreadyRunning, st, 0)) ∧
      (∀ st2 n pid2, api_start_session st db sid pid = (.started, st2, n) →
        api_start_session st2 db sid pid2 = (.alreadyRunning, st2, 0)) := by
  intro st db sid pid
  constructor
  · intro h
    have hm : sid ∈ st.PTY_BROADCASTERS ∨ sid ∈ st.JSON_BROADCASTERS := by
      rcases h with h | h
      · exact Or.inl (List.elem_iff.mp h)
      · exact Or.inr (List.elem_iff.mp h)
    rcases hm with h1 | h1
    · simp [api_start_session, h1]
    · by_cases hp : sid ∈ st.PTY_BROADCASTERS
      · simp [api_start_session, hp]
      · simp [api_start_session, hp, h1]
  · intro st2 n pid2 hstart
    by_cases hp : sid ∈ st.PTY_BROADCASTERS
    · simp [api_start_session, hp] at hstart
    · by_cases hj : sid ∈ st.JSON_BROADCASTERS
      · simp [api_start_session, hp, hj] at hstart
      · cases hf : db.sessions.find? (fun s => s.id == sid) with
        | none => simp [api_start_session, hp, hj, hf] at hstart
        | some session =>
          by_cases hat : session.agent_type = "claude-json"
          · simp [api_start_session, hp, hj, hf, hat] at hstart
            obtain ⟨hst2, -⟩ := hstart
            subst hst2
            have hc : sid ∈ sinsert sid st.JSON_BROADCASTERS :=
              mem_sinsert.mpr (Or.inl rfl)
            simp [api_start_session, spawn_json_process, hp, hc]
          · simp [api_start_session, hp, hj, hf, hat] at hstart
            obtain ⟨hst2, -⟩ := hstart
            subst hst2
            have hc : sid ∈ sinsert sid st.PTY_BROADCASTERS :=
              mem_sinsert.mpr (Or.inl rfl)
            simp [api_start_session, spawn_pty, hc]

/-- Witness for C6: a live JSON session answers `already_running` unchanged,
and starting a fresh PTY session then starting it again is a no-op on the
second call. -/
theorem api_start_session_witness :
    api_start_session ⟨[], [], [], ["s"]⟩ emptyDb "s" 7 =
      (.alreadyRunning, ⟨[], [], [], ["s"]⟩, 0) ∧
    api_start_session (spawn_pty ⟨[], [], [], []⟩ "s")
        ⟨[⟨"s", "n", "shell", "/bin/zsh", "~", "t", none, 0, none⟩], [], [], []⟩
        "s" 7 =
      (.alreadyRunning, spawn_pty ⟨[], [], [], []⟩ "s", 0) := by
  constructor
  · exact (api_start_session_idempotent ⟨[], [], [], ["s"]⟩ emptyDb "s" 7).1
      (Or.inr (by decide))
  · exact (api_start_session_idempotent ⟨[], [], [], []⟩
      ⟨[⟨"s", "n", "shell", "/bin/zsh", "~", "t", none, 0, none⟩], [], [], []⟩
      "s" 7).2 (spawn_pty ⟨[], [], [], []⟩ "s") 1 7 (by decide)

/-! ### C7: interrupt delivery -/

/-- Claim C7 does not hold of the code: for a live PTY session, the mobile
WebSocket `interrupt` frame calls only `interrupt_json_process`, which finds
no JSON process entry and does nothing — no ETX byte is written. -/
theorem C7_counterexample : ¬ claimC7 := by
  intro h
  have h2 := (h ⟨["s"], ["s"], [], []⟩ "s").2 (by decide) (by decide) (by decide)
  have h3 := h2.2
  simp [mobile_interrupt_frame, interrupt_json_process, alookup] at h3

/-- Claim C7 (amended): the REST endpoint delivers SIGINT to a live JSON
session's pid and writes exactly one ETX (0x03) byte to a live PTY session's
master; the mobile WebSocket `interrupt` frame, which only calls
`interrupt_json_process`, delivers SIGINT to live JSON sessions but performs
no action at all for sessions without a JSON process entry — in particular
for PTY sessions. -/
theorem interrupt_paths :
    ∀ (st : LiveState) (sid : String) (p : JsonProcess),
      (st.JSON_BROADCASTERS.contains sid = true →
        alookup sid st.JSON_PROCESSES = some p → 0 < p.child_id →
        api_interrupt_session st sid = (.interrupted, [.sigint p.child_id]) ∧
        (sid ≠ "" →
          mobile_interrupt_frame st true sid = [.sigint p.child_id])) ∧
      (st.JSON_BROADCASTERS.contains sid = false →
        st.PTY_BROADCASTERS.contains sid = true →
        st.PTY_SESSIONS.contains sid = true →
        api_interrupt_session st sid = (.interrupted, [.ptyWrite [0x03]])) ∧
      (alookup sid st.JSON_PROCESSES = none →
        mobile_interrupt_frame st true sid = []) := by
  intro st sid p
  refine ⟨?_, ?_, ?_⟩
  · intro hj hl hpid
    have hjm : sid ∈ st.JSON_BROADCASTERS := List.elem_iff.mp hj
    refine ⟨by simp [api_interrupt_session, hjm, hl, hpid], fun hsid => ?_⟩
    simp [mobile_interrupt_frame, interrupt_json_process, hl, hpid, hsid]
  · intro hj hpb hps
    have hjm : sid ∉ st.JSON_BROADCASTERS := by
      simp at hj
      exact hj
    have hpbm : sid ∈ st.PTY_BROADCASTERS := List.elem_iff.mp hpb
    have hpsm : sid ∈ st.PTY_SESSIONS := List.elem_iff.mp hps
    simp [api_interrupt_session, hjm, hpbm, hpsm]
  · intro hl
    by_cases hsid : sid = ""
    · simp [mobile_interrupt_frame, hsid]
    · simp [mobile_interrupt_frame, interrupt_json_process, hl, hsid]

/-- Witness for C7: concrete live JSON and PTY states exercising all three
parts of the amended claim. -/
theorem interrupt_paths_witness :
    api_interrupt_session ⟨[], [], [("s", ⟨42⟩)], ["s"]⟩ "s" =
      (.interrupted, [.sigint 42]) ∧
    mobile_interrupt_frame ⟨[], [], [("s", ⟨42⟩)], ["s"]⟩ true "s" =
      [.sigint 42] ∧
    api_interrupt_session ⟨["s"], ["s"], [], []⟩ "s" =
      (.interrupted, [.ptyWrite [0x03]]) ∧
    mobile_interrupt_frame ⟨["s"], ["s"], [], []⟩ true "s" = [] := by
  have h1 := (interrupt_paths ⟨[], [], [("s", ⟨42⟩)], ["s"]⟩ "s" ⟨42⟩).1
    (by decide) (by simp [alookup]) (by decide)
  have h2 := (interrupt_paths ⟨["s"], ["s"], [], []⟩ "s" ⟨42⟩).2.1
    (by decide) (by decide) (by decide)
  have h3 := (interrupt_paths ⟨["s"], ["s"], [], []⟩ "s" ⟨42⟩).2.2
    (by simp [alookup])
  exact ⟨h1.1, h1.2 (by decide), h2, h3⟩

/-! ### C8: session deletion and the declared cascade -/

/-- Claim C8 evaluated on the code: deleting session `"s"` removes its row
from `sessions` but leaves its `terminal_buffers` row in place — the declared
ON DELETE CASCADE never fires because no connection issues
`PRAGMA foreign_keys = ON` (SQLite keeps enforcement off by default) and
`delete_session` itself only deletes from `sessions`. The spec-modelled
cascade variant would have removed the row. -/
theorem delete_session_keeps_buffer :
    (delete_session
        ⟨[⟨"s", "n", "shell", "/bin/zsh", "~", "t", none, 0, none⟩],
         [("s", ⟨"ZGF0YQ", "t"⟩)], [], []⟩ "s").sessions = [] ∧
    alookup "s"
      (delete_session
        ⟨[⟨"s", "n", "shell", "/bin/zsh", "~", "t", none, 0, none⟩],
         [("s", ⟨"ZGF0YQ", "t"⟩)], [], []⟩ "s").terminal_buffers =
      some ⟨"ZGF0YQ", "t"⟩ ∧
    alookup "s"
      (delete_session_with_cascade
        ⟨[⟨"s", "n", "shell", "/bin/zsh", "~", "t", none, 0, none⟩],
         [("s", ⟨"ZGF0YQ", "t"⟩)], [], []⟩ "s").terminal_buffers = none := by
  refine ⟨?_, ?_, ?_⟩ <;> decide

/-! ### C10: create-session defaults -/

theorem agent_command_default {a : String}
    (h : a ∉ (["claude", "claude-json", "aider", "shell", "custom"] : List String))
    (cc sh : Option String) :
    agent_command a cc sh = "claude --dangerously-skip-permissions" := by
  simp only [List.mem_cons, List.mem_singleton, not_or] at h
  obtain ⟨h1, h2, h3, h4, h5⟩ := h
  unfold agent_command
  split <;> simp_all

/-- Claim C10: a create-session request without `working_dir` gets the
hard-coded `~/dev/pplsi`; an unrecognized `agent_type` is not rejected — it
is stored as given, with the default claude command. -/
theorem api_create_session_defaults :
    ∀ (db : Db) (name agent_type_field cc wd fid sh : Option String)
      (sid ns : String),
      (api_create_session db name agent_type_field cc none fid sh sid ns).1.working_dir
        = "~/dev/pplsi" ∧
      (∀ a, a ∉ (["claude", "claude-json", "aider", "shell", "custom"] : List String) →
        (api_create_session db name (some a) cc wd fid sh sid ns).1.command =
          "claude --dangerously-skip-permissions" ∧
        (api_create_session db name (some a) cc wd fid sh sid ns).1.agent_type = a ∧
        (api_create_session db name (some a) cc wd fid sh sid ns).2.sessions.head? =
          some (api_create_session db name (some a) cc wd fid sh sid ns).1) := by
  intro db name agent_type_field cc wd fid sh sid ns
  constructor
  · simp [api_create_session]
  · intro a ha
    refine ⟨?_, ?_, ?_⟩
    · simp [api_create_session, agent_command_default ha]
    · simp [api_create_session]
    · simp [api_create_session, save_session]

/-- Witness for C10: a request with agent_type `"weird"` and no working_dir
produces the default command and directory, stores the unrecognized type and
saves the row. -/
theorem api_create_session_witness :
    (api_create_session emptyDb none (some "weird") none none none none
        "id1" "t").1.working_dir = "~/dev/pplsi" ∧
    (api_create_session emptyDb none (some "weird") none none none none
        "id1" "t").1.command = "claude --dangerously-skip-permissions" ∧
    (api_create_session emptyDb none (some "weird") none none none none
        "id1" "t").1.agent_type = "weird" := by
  have h := api_create_session_defaults emptyDb none (some "weird") none none
    none none "id1" "t"
  have h2 := h.2 "weird" (by decide)
  exact ⟨h.1, h2.1, h2.2.1⟩

end AgentHub

namespace AgentHub

/-! ### C9: the recently-closed cap -/

theorem rcMoreRecent_trans :
    ∀ a b c : RecentlyClosedData, rcMoreRecent a b = true →
      rcMoreRecent b c = true → rcMoreRecent a c = true := by
  intro a b c
  simp only [rcMoreRecent, decide_eq_true_eq]
  omega

theorem rcMoreRecent_total :
    ∀ a b : RecentlyClosedData, (rcMoreRecent a b || rcMoreRecent b a) = true := by
  intro a b
  simp only [rcMoreRecent, Bool.or_eq_true, decide_eq_true_eq]
  omega

theorem nodup_subset_length_le {l1 l2 : List String} (d : l1.Nodup)
    (h : l1 ⊆ l2) : l1.length ≤ l2.length := by
  calc l1.length = l1.toFinset.card := (List.toFinset_card_of_nodup d).symm
    _ ≤ l2.toFinset.card := Finset.card_le_card (by
        intro x hx
        simp only [List.mem_toFinset] at *
        exact h hx)
    _ ≤ l2.length := l2.toFinset_card_le

theorem rc_insert_nodup (tbl : List RecentlyClosedData)
    (s : RecentlyClosedData) (h : (rc_ids tbl).Nodup) :
    (rc_ids (s :: tbl.filter (fun r => r.id != s.id))).Nodup := by
  simp only [rc_ids] at h ⊢
  simp only [List.map_cons, List.nodup_cons]
  constructor
  · intro hmem
    obtain ⟨r, hr, hrid⟩ := List.mem_map.mp hmem
    have h2 := (List.mem_filter.mp hr).2
    simp only [bne_iff_ne, ne_eq, decide_eq_true_eq] at h2
    exact h2 hrid
  · exact (List.Sublist.map (·.id) (List.filter_sublist tbl)).nodup h

theorem keep_length_le (inserted : List RecentlyClosedData)
    (hnd : (rc_ids inserted).Nodup) :
    (inserted.filter (fun r =>
      (((inserted.mergeSort rcMoreRecent).take 10).map (·.id)).contains r.id)).length
      ≤ 10 := by
  have hnd' : (inserted.map (·.id)).Nodup := by simpa [rc_ids] using hnd
  have f1 := List.filter_sublist (p := fun r : RecentlyClosedData =>
    (((inserted.mergeSort rcMoreRecent).take 10).map (·.id)).contains r.id)
    inserted
  have f2 : ((inserted.filter (fun r =>
      (((inserted.mergeSort rcMoreRecent).take 10).map (·.id)).contains r.id)).map
      (·.id)).Nodup :=
    (List.Sublist.map (·.id) f1).nodup hnd'
  have f3 : (inserted.filter (fun r =>
      (((inserted.mergeSort rcMoreRecent).take 10).map (·.id)).contains r.id)).map
      (·.id) ⊆ ((inserted.mergeSort rcMoreRecent).take 10).map (·.id) := by
    intro x hx
    obtain ⟨r, hr, hrid⟩ := List.mem_map.mp hx
    have hpred := (List.mem_filter.mp hr).2
    subst hrid
    exact List.elem_iff.mp hpred
  have f4 := nodup_subset_length_le f2 f3
  have f5 : (((inserted.mergeSort rcMoreRecent).take 10).map (·.id)).length ≤ 10 := by
    simp [List.length_take]
  simp only [List.length_map] at f4 f5
  omega

theorem keep_most_recent (inserted : List RecentlyClosedData)
    (hnd : (rc_ids inserted).Nodup) :
    ∀ r ∈ inserted.filter (fun r2 =>
        (((inserted.mergeSort rcMoreRecent).take 10).map (·.id)).contains r2.id),
    ∀ q ∈ inserted,
      q ∉ inserted.filter (fun r2 =>
        (((inserted.mergeSort rcMoreRecent).take 10).map (·.id)).contains r2.id) →
      q.closed_at ≤ r.closed_at := by
  intro r hr q hq hqn
  have hnd' : (inserted.map (·.id)).Nodup := by simpa [rc_ids] using hnd
  have perm := List.mergeSort_perm inserted rcMoreRecent
  have sorted := List.sorted_mergeSort rcMoreRecent_trans rcMoreRecent_total inserted
  have hrk : r.id ∈ ((inserted.mergeSort rcMoreRecent).take 10).map (·.id) :=
    List.elem_iff.mp (List.mem_filter.mp hr).2
  obtain ⟨r2, hr2take, hr2id⟩ := List.mem_map.mp hrk
  have hr2ins : r2 ∈ inserted := perm.mem_iff.mp (List.mem_of_mem_take hr2take)
  have hrins : r ∈ inserted := (List.mem_filter.mp hr).1
  have hr2r : r2 = r := List.inj_on_of_nodup_map hnd' hr2ins hrins hr2id
  rw [hr2r] at hr2take
  have hqk : q.id ∉ ((inserted.mergeSort rcMoreRecent).take 10).map (·.id) := by
    intro hqk
    exact hqn (List.mem_filter.mpr ⟨hq, List.elem_iff.mpr hqk⟩)
  have hqsl : q ∈ inserted.mergeSort rcMoreRecent := perm.mem_iff.mpr hq
  have hq2 : q ∈ (inserted.mergeSort rcMoreRecent).take 10 ++
      (inserted.mergeSort rcMoreRecent).drop 10 := by
    rw [List.take_append_drop]
    exact hqsl
  have hqdrop : q ∈ (inserted.mergeSort rcMoreRecent).drop 10 := by
    rcases List.mem_append.mp hq2 with hcase | hcase
    · exact absurd (List.mem_map_of_mem (·.id) hcase) hqk
    · exact hcase
  have sorted2 : List.Pairwise (fun a b => rcMoreRecent a b = true)
      ((inserted.mergeSort rcMoreRecent).take 10 ++
       (inserted.mergeSort rcMoreRecent).drop 10) := by
    rw [List.take_append_drop]
    exact sorted
  have hle := (List.pairwise_append.mp sorted2).2.2 r hr2take q hqdrop
  simpa [rcMoreRecent] using hle

theorem save_recently_closed_nodup (db : Db) (s : RecentlyClosedData)
    (h : (rc_ids db.recently_closed).Nodup) :
    (rc_ids (save_recently_closed db s).recently_closed).Nodup := by
  have f0 := rc_insert_nodup db.recently_closed s h
  have f1 := List.filter_sublist (p := fun r : RecentlyClosedData =>
    ((((s :: db.recently_closed.filter (fun r2 => r2.id != s.id)).mergeSort
      rcMoreRecent).take 10).map (·.id)).contains r.id)
    (s :: db.recently_closed.filter (fun r2 => r2.id != s.id))
  simp only [rc_ids] at f0 ⊢
  exact (List.Sublist.map (·.id) f1).nodup f0

theorem save_recently_closed_len (db : Db) (s : RecentlyClosedData)
    (h : (rc_ids db.recently_closed).Nodup) :
    (save_recently_closed db s).recently_closed.length ≤ 10 :=
  keep_length_le (s :: db.recently_closed.filter (fun r2 => r2.id != s.id))
    (rc_insert_nodup db.recently_closed s h)

theorem save_recently_closed_fold_le (saves : List RecentlyClosedData) :
    ∀ db : Db, (rc_ids db.recently_closed).Nodup →
      db.recently_closed.length ≤ 10 →
      (rc_ids ((saves.foldl save_recently_closed db).recently_closed)).Nodup ∧
      (saves.foldl save_recently_closed db).recently_closed.length ≤ 10 := by
  induction saves with
  | nil => exact fun db h1 h2 => ⟨h1, h2⟩
  | cons s rest ih =>
    intro db h1 _
    rw [List.foldl_cons]
    exact ih (save_recently_closed db s) (save_recently_closed_nodup db s h1)
      (save_recently_closed_len db s h1)

/-- Claim C9: after any `save_recently_closed`, provided row ids are unique
(an invariant the primary key guarantees and the operation preserves), the
table holds at most 10 rows, and every dropped candidate row is no more
recent than every kept row — the prune, run in the same call as the insert,
keeps the 10 most recent `closed_at` values; consequently any sequence of
saves starting from the fresh database leaves at most 10 rows. -/
theorem save_recently_closed_spec :
    ∀ (db : Db) (s : RecentlyClosedData),
      ((rc_ids db.recently_closed).Nodup →
        (save_recently_closed db s).recently_closed.length ≤ 10 ∧
        (rc_ids (save_recently_closed db s).recently_closed).Nodup ∧
        (∀ r ∈ (save_recently_closed db s).recently_closed,
         ∀ q ∈ s :: db.recently_closed.filter (fun r2 => r2.id != s.id),
           q ∉ (save_recently_closed db s).recently_closed →
           q.closed_at ≤ r.closed_at)) ∧
      (∀ saves : List RecentlyClosedData,
        ((saves.foldl save_recently_closed emptyDb).recently_closed).length ≤ 10) := by
  intro db s
  constructor
  · intro h
    refine ⟨save_recently_closed_len db s h,
            save_recently_closed_nodup db s h, ?_⟩
    exact keep_most_recent
      (s :: db.recently_closed.filter (fun r2 => r2.id != s.id))
      (rc_insert_nodup db.recently_closed s h)
  · intro saves
    exact (save_recently_closed_fold_le saves emptyDb (by simp [rc_ids, emptyDb])
      (by simp [emptyDb])).2

/-- Witness for C9: saving an eleventh closed session into a full table of
ten keeps the count at 10 and drops the oldest row. -/
theorem save_recently_closed_witness :
    (save_recently_closed
      ⟨[], [], [⟨"a", "n", "shell", "c", "w", none, 1⟩,
                ⟨"b", "n", "shell", "c", "w", none, 2⟩,
                ⟨"c", "n", "shell", "c", "w", none, 3⟩,
                ⟨"d", "n", "shell", "c", "w", none, 4⟩,
                ⟨"e", "n", "shell", "c", "w", none, 5⟩,
                ⟨"f", "n", "shell", "c", "w", none, 6⟩,
                ⟨"g", "n", "shell", "c", "w", none, 7⟩,
                ⟨"h", "n", "shell", "c", "w", none, 8⟩,
                ⟨"i", "n", "shell", "c", "w", none, 9⟩,
                ⟨"j", "n", "shell", "c", "w", none, 10⟩], []⟩
      ⟨"k", "n", "shell", "c", "w", none, 11⟩).recently_closed.length ≤ 10 :=
  ((save_recently_closed_spec
      ⟨[], [], [⟨"a", "n", "shell", "c", "w", none, 1⟩,
                ⟨"b", "n", "shell", "c", "w", none, 2⟩,
                ⟨"c", "n", "shell", "c", "w", none, 3⟩,
                ⟨"d", "n", "shell", "c", "w", none, 4⟩,
                ⟨"e", "n", "shell", "c", "w", none, 5⟩,
                ⟨"f", "n", "shell", "c", "w", none, 6⟩,
                ⟨"g", "n", "shell", "c", "w", none, 7⟩,
                ⟨"h", "n", "shell", "c", "w", none, 8⟩,
                ⟨"i", "n", "shell", "c", "w", none, 9⟩,
                ⟨"j", "n", "shell", "c", "w", none, 10⟩], []⟩
      ⟨"k", "n", "shell", "c", "w", none, 11⟩).1 (by decide)).1

/-- Witness for C2's amended theorem: a concrete spawn keeps the tables in
sync, discharging the `mapsInSync` hypothesis at a concrete state. -/
theorem live_tables_sync_witness :
    mapsInSync (spawn_pty ⟨["a"], ["a"], [], []⟩ "b") :=
  (live_tables_sync ⟨["a"], ["a"], [], []⟩ "b" 0).1
    ⟨fun a => Iff.rfl, fun a => by simp [alookup]⟩

end AgentHub
